import Mathlib

/-!
Shallow embedding of the countdown-timer logic of the gnome-timer shell
extension (`extension.js`, plus the two earlier variants of the same file).

Conventions of the embedding:
* GJS numbers holding microsecond timestamps are embedded as `ℤ`
  (`GLib.get_real_time()` returns integral microseconds); every operation
  takes the current clock reading `now : ℤ` as an explicit argument.
* A JS field that can hold `null` is embedded as `Option ℤ`; JS coerces
  `null` to `0` in arithmetic, which `jsToInt` makes explicit.
* `Math.floor` / the float `%` operator of JS are embedded over exact
  rationals (`ℚ`): `Math.floor` is `Int.floor`, and `x % y` is
  `x - y * trunc (x / y)` with truncation toward zero, which is the
  IEEE-remainder semantics of the JS `%` operator.
-/

namespace GnomeTimer

/-- JS numeric coercion of a possibly-`null` field: `null` behaves as `0`
in `+` and `-`. -/
def jsToInt : Option ℤ → ℤ
  | none => 0
  | some z => z

/-- Truncation toward zero, as used by the JS `%` operator. -/
def jsTrunc (q : ℚ) : ℤ := if 0 ≤ q then ⌊q⌋ else ⌈q⌉

/-- The JS `%` operator on numbers: `x % y = x - y * trunc (x / y)`
(the result carries the sign of the dividend). -/
def jsFmod (x y : ℚ) : ℚ := x - y * (jsTrunc (x / y))

/-- `this.SECOND_TO_MS = 1000000` (microseconds per second). -/
def SECOND_TO_MS : ℤ := 1000000

/-- `this.MINUTE_TO_MS = 1000000 * 60`. -/
def MINUTE_TO_MS : ℤ := 1000000 * 60

/-- `this.HOUR_TO_MS = 1000000 * 60 * 60`. -/
def HOUR_TO_MS : ℤ := 1000000 * 60 * 60

/-- `Math.floor(mcsLeft / this.SECOND_TO_MS % 60)`. -/
def jsSeconds (mcs : ℤ) : ℤ := ⌊jsFmod ((mcs : ℚ) / (SECOND_TO_MS : ℚ)) 60⌋

/-- `Math.floor(mcsLeft / this.MINUTE_TO_MS % 60)`. -/
def jsMinutes (mcs : ℤ) : ℤ := ⌊jsFmod ((mcs : ℚ) / (MINUTE_TO_MS : ℚ)) 60⌋

/-- `Math.floor(mcsLeft / this.HOUR_TO_MS)`. -/
def jsHours (mcs : ℤ) : ℤ := ⌊(mcs : ℚ) / (HOUR_TO_MS : ℚ)⌋

/-- The `Time` class: a triple of displayable components. -/
structure Time where
  hours : ℤ
  minutes : ℤ
  seconds : ℤ
deriving DecidableEq

/-- `String(n).padStart(2, '0')`. -/
def padStart2 (s : String) : String :=
  if s.length = 0 then "00" else if s.length = 1 then "0" ++ s else s

/-- `Time.getFormatted()`: zero-padded `HH:MM:SS` rendering. -/
def Time.getFormatted (t : Time) : String :=
  padStart2 (toString t.hours) ++ ":" ++ padStart2 (toString t.minutes)
    ++ ":" ++ padStart2 (toString t.seconds)

/-- The three state constants `STATE_PLAY`, `STATE_PAUSE`, `STATE_STOP`. -/
inductive TState where
  | play
  | pause
  | stop
deriving DecidableEq

/-- The `Timer` class of `extension.js`: countdown state plus
absolute-timestamp arithmetic. -/
structure Timer where
  time : Time
  mcsLeft : Option ℤ
  pauseTimestamp : Option ℤ
  finishTimestamp : Option ℤ
  state : TState
deriving DecidableEq

/-- The `Timer` constructor: null timestamps, `setTime(time)` (a copy),
initial state `STATE_STOP`. -/
def Timer.new (t : Time) : Timer :=
  { time := ⟨t.hours, t.minutes, t.seconds⟩
    mcsLeft := none
    pauseTimestamp := none
    finishTimestamp := none
    state := TState.stop }

/-- `setTime(time)`: `this.time = new Time(time.hours, time.minutes,
time.seconds)` — a fresh copy of the components, not a reference. -/
def Timer.setTime (T : Timer) (t : Time) : Timer :=
  { T with time := ⟨t.hours, t.minutes, t.seconds⟩ }

/-- `stop()`: zeroes the time components and sets `STATE_STOP`.
It does not touch `mcsLeft`, `pauseTimestamp` or `finishTimestamp`. -/
def Timer.stop (T : Timer) : Timer :=
  { T with time := ⟨0, 0, 0⟩, state := TState.stop }

/-- `update()`: no-op while paused; otherwise recomputes `mcsLeft` from the
absolute deadline, calls `stop()` when `mcsLeft <= 0`, and then (in both
cases) overwrites the three time components from `mcsLeft`. -/
def Timer.update (T : Timer) (now : ℤ) : Timer :=
  if T.state = TState.pause then T
  else
    let mcs := jsToInt T.finishTimestamp - now
    let T1 : Timer := { T with mcsLeft := some mcs }
    let T2 : Timer := if mcs ≤ 0 then T1.stop else T1
    { T2 with time := ⟨jsHours mcs, jsMinutes mcs, jsSeconds mcs⟩ }

/-- `start()`: sets the absolute deadline from the configured components,
sets `STATE_PLAY`, and calls `update()` at the same instant. -/
def Timer.start (T : Timer) (now : ℤ) : Timer :=
  let fin := now + SECOND_TO_MS * T.time.seconds
    + MINUTE_TO_MS * T.time.minutes + HOUR_TO_MS * T.time.hours
  Timer.update { T with finishTimestamp := some fin, state := TState.play } now

/-- `pause()`: records the pause instant and sets `STATE_PAUSE`,
unconditionally. -/
def Timer.pause (T : Timer) (now : ℤ) : Timer :=
  { T with pauseTimestamp := some now, state := TState.pause }

/-- `resume()`: shifts the deadline by the elapsed pause time
(`finishTimestamp += now - pauseTimestamp`), clears the pause instant and
sets `STATE_PLAY`, unconditionally. -/
def Timer.resume (T : Timer) (now : ℤ) : Timer :=
  { T with
    finishTimestamp := some (jsToInt T.finishTimestamp + (now - jsToInt T.pauseTimestamp))
    pauseTimestamp := none
    state := TState.play }

/-- `isPaused()`. -/
def Timer.isPaused (T : Timer) : Bool := T.state = TState.pause

/-- `isPlaying()`. -/
def Timer.isPlaying (T : Timer) : Bool := T.state = TState.play

/-- `isStopped()`. -/
def Timer.isStopped (T : Timer) : Bool := T.state = TState.stop

/-! The earlier variant of the `Timer` class (`src/unnamed/part_000`): no
state field of its own (the popup holds the state), `isPaused()` tests
`pauseTimestamp !== null`, and `update()` returns a value: the cached
`mcsLeft` while paused, `false` once finished, the fresh `mcsLeft`
otherwise. -/

/-- A JS value returned by the part_000 `update()`: a number, `null`, or
`false`. -/
inductive JsRet where
  | num (z : ℤ)
  | nullv
  | falsev
deriving DecidableEq

/-- The part_000 `Timer`: display components live directly on the object
and are `undefined` (here `none`) until first written. -/
structure TimerV0 where
  mcsLeft : Option ℤ
  pauseTimestamp : Option ℤ
  finishTimestamp : ℤ
  seconds : Option ℤ
  minutes : Option ℤ
  hours : Option ℤ
deriving DecidableEq

/-- The part_000 constructor: `finishTimestamp = now + duration`. -/
def TimerV0.new (h m s : ℤ) (now : ℤ) : TimerV0 :=
  { mcsLeft := none
    pauseTimestamp := none
    finishTimestamp := now + SECOND_TO_MS * s + MINUTE_TO_MS * m + HOUR_TO_MS * h
    seconds := none
    minutes := none
    hours := none }

/-- part_000 `isPaused()`: `this.pauseTimestamp !== null`. -/
def TimerV0.isPaused (T : TimerV0) : Bool := T.pauseTimestamp ≠ none

/-- part_000 `isFinished()`: `this.mcsLeft <= 0` (JS coerces `null` to 0). -/
def TimerV0.isFinished (T : TimerV0) : Bool := jsToInt T.mcsLeft ≤ 0

/-- part_000 `update()`: while paused, returns `this.mcsLeft` unchanged;
otherwise recomputes `mcsLeft`, returns `false` when finished, else writes
the display components and returns `mcsLeft`. -/
def TimerV0.update (T : TimerV0) (now : ℤ) : TimerV0 × JsRet :=
  if T.pauseTimestamp ≠ none then
    (T, match T.mcsLeft with
        | some z => JsRet.num z
        | none => JsRet.nullv)
  else
    let mcs := T.finishTimestamp - now
    let T1 : TimerV0 := { T with mcsLeft := some mcs }
    if mcs ≤ 0 then (T1, JsRet.falsev)
    else ({ T1 with
            seconds := some (jsSeconds mcs)
            minutes := some (jsMinutes mcs)
            hours := some (jsHours mcs) }, JsRet.num mcs)

/-! The UI glue around the `Timer` (`TimerPopup` of `extension.js` /
`part_001`), reduced to the pieces the refresh loop touches: the panel
label, the play-menu-item label, and the side effects on the host
(notification, unscheduling, scheduling), recorded as an action trace. -/

/-- `'Done!'`. -/
def doneText : String := "Done!"

/-- `playStateLabelMap`. -/
def playStateLabel : TState → String
  | TState.play => "Pause"
  | TState.pause => "Resume"
  | TState.stop => "Start"

/-- Host-facing side effects of the popup code, in program order:
one `Timer.update()` invocation, `Mainloop.source_remove`,
`Main.notify(...)`, `Mainloop.timeout_add(ms, ...)`. -/
inductive Act where
  | updateCall
  | sourceRemove
  | notify (s : String)
  | scheduleTimeout (ms : ℕ)
deriving DecidableEq

/-- The popup state the refresh loop reads and writes. -/
structure Popup where
  timer : Timer
  optionsTime : Time
  panelLabel : String
  playLabel : String
deriving DecidableEq

/-- `updatePanelLabel(panelLabelText)`: explicit text wins; otherwise the
configured duration while stopped, the live countdown otherwise. -/
def Popup.updatePanelLabel (p : Popup) (txt : Option String) : Popup :=
  match txt with
  | some s => { p with panelLabel := s }
  | none =>
    if p.timer.isStopped then { p with panelLabel := p.optionsTime.getFormatted }
    else { p with panelLabel := p.timer.time.getFormatted }

/-- `stopTimer(panelLabelText)`: `source_remove`, `timer.stop()`,
`updatePanelLabel(panelLabelText)`, play label back to `'Start'`. -/
def Popup.stopTimer (p : Popup) (txt : Option String) : Popup × List Act :=
  let p1 : Popup := { p with timer := p.timer.stop }
  let p2 := p1.updatePanelLabel txt
  ({ p2 with playLabel := playStateLabel TState.stop }, [Act.sourceRemove])

/-- `updateTimer()` (the 500 ms refresh tick): calls `timer.update()`; if
the timer is now stopped, `stopTimer('Done!')` plus one notification and
`return false` (cancelling the repeat); otherwise refreshes the label and
`return true`. -/
def Popup.updateTimer (p : Popup) (now : ℤ) : Popup × Bool × List Act :=
  let p1 : Popup := { p with timer := p.timer.update now }
  if p1.timer.isStopped then
    let r := p1.stopTimer (some doneText)
    (r.1, false, Act.updateCall :: (r.2 ++ [Act.notify doneText]))
  else
    (p1.updatePanelLabel none, true, [Act.updateCall])

/-- `startDisplayingTime()` (`part_001`; `handlePlayClick` of
`extension.js` inlines the same two statements): one synchronous
`updateTimer()` call, then `timeout_add(500, updateTimer)`. -/
def Popup.startDisplayingTime (p : Popup) (now : ℤ) : Popup × List Act :=
  let r := p.updateTimer now
  (r.1, r.2.2 ++ [Act.scheduleTimeout 500])

/-! A reference-aware model of `Time` objects for the aliasing claim about
`setTime`: `Time` instances live in a heap of cells, `new Time(...)`
allocates a fresh cell, and field assignments write through a reference.
Only the pieces `setTime` / `handleTimeInput` / `startTimer` touch are
modelled. -/

/-- A heap of `Time` objects: a bump allocator plus cell contents. -/
structure HeapTime where
  nextRef : ℕ
  val : ℕ → Time

/-- Field assignment through a reference. -/
def HeapTime.write (h : HeapTime) (r : ℕ) (t : Time) : HeapTime :=
  { h with val := fun x => if x = r then t else h.val x }

/-- `new Time(...)`: allocate a fresh cell holding `t`. -/
def HeapTime.alloc (h : HeapTime) (t : Time) : HeapTime × ℕ :=
  ({ nextRef := h.nextRef + 1
     val := fun x => if x = h.nextRef then t else h.val x }, h.nextRef)

/-- The `Timer` with its `time` field as a heap reference. -/
structure HTimer where
  timeRef : ℕ
  mcsLeft : Option ℤ
  finishTimestamp : Option ℤ
  state : TState

/-- `setTime(time)` on the heap model: read the components of the source
object and allocate a fresh `Time` for `this.time`. -/
def HTimer.setTime (T : HTimer) (h : HeapTime) (srcRef : ℕ) : HTimer × HeapTime :=
  let src := h.val srcRef
  let a := h.alloc ⟨src.hours, src.minutes, src.seconds⟩
  ({ T with timeRef := a.2 }, a.1)

/-- `update()` on the heap model: recompute `mcsLeft` and write the
components through `this.time` (zeroing first via `stop()` when expired,
which the final writes overwrite). -/
def HTimer.update (T : HTimer) (h : HeapTime) (now : ℤ) : HTimer × HeapTime :=
  if T.state = TState.pause then (T, h)
  else
    let mcs := jsToInt T.finishTimestamp - now
    let st := if mcs ≤ 0 then TState.stop else T.state
    ({ T with mcsLeft := some mcs, state := st },
      h.write T.timeRef ⟨jsHours mcs, jsMinutes mcs, jsSeconds mcs⟩)

/-- `start()` on the heap model: deadline from the components of
`this.time`, then `update()`. -/
def HTimer.start (T : HTimer) (h : HeapTime) (now : ℤ) : HTimer × HeapTime :=
  let tv := h.val T.timeRef
  let fin := now + SECOND_TO_MS * tv.seconds + MINUTE_TO_MS * tv.minutes + HOUR_TO_MS * tv.hours
  HTimer.update { T with finishTimestamp := some fin, state := TState.play } h now

/-- The popup slice relevant to slider input: the timer and the shared
`options.time` object. -/
structure PopupH where
  timer : HTimer
  optionsTimeRef : ℕ

/-- `handleTimeInput()`: writes the slider values into the fields of the
shared `options.time` object. -/
def PopupH.handleTimeInput (p : PopupH) (h : HeapTime) (t : Time) : HeapTime :=
  h.write p.optionsTimeRef t

/-- `startTimer()` (`part_001`; the stopped branch of `handlePlayClick` in
`extension.js`): `timer.setTime(this.options.time)` then `timer.start()`. -/
def PopupH.startTimer (p : PopupH) (h : HeapTime) (now : ℤ) : PopupH × HeapTime :=
  let r1 := p.timer.setTime h p.optionsTimeRef
  let r2 := r1.1.start r1.2 now
  ({ p with timer := r2.1 }, r2.2)

/-! Closed integer forms of the embedded JS float arithmetic, used both
for symbolic reasoning and to evaluate the definitions on concrete
inputs. `/` on `ℤ` below is Euclidean division (floor division for the
positive divisors that occur here). -/

theorem jsTrunc_intCast_div (n : ℤ) (d : ℕ) (hd : d ≠ 0) :
    jsTrunc ((n : ℚ) / (d : ℚ)) = if 0 ≤ n then n / (d : ℤ) else -((-n) / (d : ℤ)) := by
  have hdq : (0 : ℚ) < (d : ℚ) := by
    exact_mod_cast Nat.pos_of_ne_zero hd
  unfold jsTrunc
  by_cases hn : 0 ≤ n
  · have hq : (0 : ℚ) ≤ (n : ℚ) / (d : ℚ) :=
      div_nonneg (by exact_mod_cast hn) (le_of_lt hdq)
    rw [if_pos hq, if_pos hn, Rat.floor_intCast_div_natCast]
  · have hq : (n : ℚ) / (d : ℚ) < 0 :=
      div_neg_of_neg_of_pos (by exact_mod_cast not_le.mp hn) hdq
    rw [if_neg (not_le.mpr hq), if_neg hn]
    have hneg : -((n : ℚ) / (d : ℚ)) = ((-n : ℤ) : ℚ) / (d : ℚ) := by
      push_cast
      ring
    have hfl : ⌊-((n : ℚ) / (d : ℚ))⌋ = (-n) / (d : ℤ) := by
      rw [hneg, Rat.floor_intCast_div_natCast]
    have : ⌊-((n : ℚ) / (d : ℚ))⌋ = -⌈(n : ℚ) / (d : ℚ)⌉ := Int.floor_neg
    omega

theorem floor_jsFmod (n : ℤ) (a : ℕ) (ha : a ≠ 0) :
    ⌊jsFmod ((n : ℚ) / (a : ℚ)) 60⌋
      = n / (a : ℤ)
        - 60 * (if 0 ≤ n then n / ((60 * a : ℕ) : ℤ) else -((-n) / ((60 * a : ℕ) : ℤ))) := by
  unfold jsFmod
  have hdiv : ((n : ℚ) / (a : ℚ)) / 60 = (n : ℚ) / (((60 * a : ℕ) : ℕ) : ℚ) := by
    push_cast
    rw [div_div]
    ring_nf
  rw [hdiv, jsTrunc_intCast_div n (60 * a) (by omega)]
  set t : ℤ := if 0 ≤ n then n / ((60 * a : ℕ) : ℤ) else -((-n) / ((60 * a : ℕ) : ℤ)) with ht
  have hcast : (60 : ℚ) * (t : ℚ) = ((60 * t : ℤ) : ℚ) := by
    push_cast
    ring
  rw [hcast, Int.floor_sub_int, Rat.floor_intCast_div_natCast]

theorem jsSeconds_eq (mcs : ℤ) :
    jsSeconds mcs
      = mcs / 1000000
        - 60 * (if 0 ≤ mcs then mcs / 60000000 else -((-mcs) / 60000000)) := by
  have h := floor_jsFmod mcs 1000000 (by norm_num)
  unfold jsSeconds SECOND_TO_MS
  norm_num at h ⊢
  convert h using 3

theorem jsMinutes_eq (mcs : ℤ) :
    jsMinutes mcs
      = mcs / 60000000
        - 60 * (if 0 ≤ mcs then mcs / 3600000000 else -((-mcs) / 3600000000)) := by
  have h := floor_jsFmod mcs 60000000 (by norm_num)
  unfold jsMinutes MINUTE_TO_MS
  norm_num at h ⊢
  convert h using 3

theorem jsHours_eq (mcs : ℤ) : jsHours mcs = mcs / 3600000000 := by
  have h := Rat.floor_intCast_div_natCast mcs 3600000000
  unfold jsHours HOUR_TO_MS
  norm_num at h ⊢
  convert h using 3

/-- Normal form of `update()` in the non-paused case: `mcsLeft` and the
display components are recomputed from the deadline, the timestamps are
untouched, and the state collapses to Stopped exactly when the fresh
remaining value is `≤ 0`. -/
theorem Timer.update_not_paused (T : Timer) (now : ℤ) (h : T.state ≠ TState.pause) :
    T.update now =
      { time := ⟨jsHours (jsToInt T.finishTimestamp - now),
                 jsMinutes (jsToInt T.finishTimestamp - now),
                 jsSeconds (jsToInt T.finishTimestamp - now)⟩
        mcsLeft := some (jsToInt T.finishTimestamp - now)
        pauseTimestamp := T.pauseTimestamp
        finishTimestamp := T.finishTimestamp
        state := if jsToInt T.finishTimestamp - now ≤ 0 then TState.stop else T.state } := by
  by_cases hm : jsToInt T.finishTimestamp - now ≤ 0 <;>
    simp [Timer.update, Timer.stop, h, hm]

/-- `update()` never changes the deadline. -/
theorem Timer.update_finish (T : Timer) (now : ℤ) :
    (T.update now).finishTimestamp = T.finishTimestamp := by
  by_cases h : T.state = TState.pause
  · simp [Timer.update, h]
  · rw [Timer.update_not_paused T now h]

/-- C2 (counterexample): the transition operations are not guarded.
`pause()` invoked on a freshly constructed (Stopped) timer moves it to
Paused, and `start()` invoked while Playing silently restarts the
countdown with a new deadline (here `7000000` instead of the original
`5000000`), contradicting the claim that invalid calls signal an error or
leave the timer unchanged. -/
theorem pause_from_stopped_takes_effect :
    (Timer.new ⟨0, 0, 5⟩).state = TState.stop
    ∧ ((Timer.new ⟨0, 0, 5⟩).pause 3).state = TState.pause
    ∧ ((Timer.new ⟨0, 0, 5⟩).start 0).state = TState.play
    ∧ ((Timer.new ⟨0, 0, 5⟩).start 0).finishTimestamp = some 5000000
    ∧ (((Timer.new ⟨0, 0, 5⟩).start 0).start 2000000).finishTimestamp = some 7000000
    ∧ (((Timer.new ⟨0, 0, 5⟩).start 0).start 2000000).state = TState.play := by
  simp [Timer.new, Timer.start, Timer.update, Timer.pause, Timer.stop, jsToInt,
    jsSeconds_eq, jsMinutes_eq, jsHours_eq]
  decide

/-- C2 (amended): every transition operation applies its effect
unconditionally, in every state: `pause()` always records the instant and
moves to Paused, `resume()` always shifts the deadline by `now -
pauseTimestamp` and moves to Playing, and `start()` always recomputes the
deadline from the current time components. Valid sequencing is ensured
only by the calling UI, not by the `Timer` itself. -/
theorem transitions_unguarded (T : Timer) (now : ℤ) :
    (T.pause now).state = TState.pause
    ∧ (T.pause now).pauseTimestamp = some now
    ∧ (T.resume now).state = TState.play
    ∧ (T.resume now).finishTimestamp
        = some (jsToInt T.finishTimestamp + (now - jsToInt T.pauseTimestamp))
    ∧ (T.resume now).pauseTimestamp = none
    ∧ (T.start now).finishTimestamp
        = some (now + SECOND_TO_MS * T.time.seconds
            + MINUTE_TO_MS * T.time.minutes + HOUR_TO_MS * T.time.hours) := by
  refine ⟨rfl, rfl, rfl, rfl, rfl, ?_⟩
  unfold Timer.start
  rw [Timer.update_finish]

/-- C3 (code bug): evaluating `update()` one microsecond past the deadline.
`stop()` zeroes the components and sets Stopped, but the subsequent
unconditional writes overwrite them with values derived from the negative
`mcsLeft`, leaving every component at `-1` — contradicting the intent of
the `stop()` call made in the same function. -/
theorem update_past_deadline_stores_negative_components :
    ((Timer.new ⟨0, 0, 1⟩).start 0).update 1000001 =
      { time := ⟨-1, -1, -1⟩, mcsLeft := some (-1), pauseTimestamp := none,
        finishTimestamp := some 1000000, state := TState.stop } := by
  simp [Timer.new, Timer.start, Timer.update, Timer.stop, jsToInt,
    jsSeconds_eq, jsMinutes_eq, jsHours_eq]
  decide

/-- C5 (counterexample): `stop()` does not clear the timestamps. After
`start`, `pause`, `stop` the timer is Stopped, yet `pauseTimestamp` is
still `some 1000000` (claim: non-null iff Paused) and `finishTimestamp`
is still `some 5000000` (claim: null whenever Stopped). -/
theorem stop_leaves_timestamps_concrete :
    ((((Timer.new ⟨0, 0, 5⟩).start 0).pause 1000000).stop).state = TState.stop
    ∧ ((((Timer.new ⟨0, 0, 5⟩).start 0).pause 1000000).stop).pauseTimestamp = some 1000000
    ∧ ((((Timer.new ⟨0, 0, 5⟩).start 0).pause 1000000).stop).finishTimestamp = some 5000000 := by
  simp [Timer.new, Timer.start, Timer.update, Timer.pause, Timer.stop, jsToInt,
    jsSeconds_eq, jsMinutes_eq, jsHours_eq]
  decide

/-- C5 (amended): `stop()` zeroes the displayable components and sets the
state to Stopped, but leaves `mcsLeft`, `pauseTimestamp` and
`finishTimestamp` exactly as they were; the `pausedAtInstant` field is
set by `pause()` and cleared by `resume()` only. -/
theorem stop_zeroes_components_only (T : Timer) :
    T.stop.state = TState.stop
    ∧ T.stop.time = ⟨0, 0, 0⟩
    ∧ T.stop.finishTimestamp = T.finishTimestamp
    ∧ T.stop.pauseTimestamp = T.pauseTimestamp
    ∧ T.stop.mcsLeft = T.mcsLeft :=
  ⟨rfl, rfl, rfl, rfl, rfl⟩

/-- C7: `update()` while Paused is a complete no-op on the
`extension.js` timer (every field unchanged, so repeated calls at any
instants return the same remaining value), and on the part_000 variant it
additionally returns the previously computed `mcsLeft` unchanged. -/
theorem update_paused_noop (T : Timer) (T0 : TimerV0) (n n0 : ℤ)
    (h : T.state = TState.pause) (h0 : T0.pauseTimestamp ≠ none) :
    T.update n = T
    ∧ T0.update n0 = (T0, match T0.mcsLeft with
        | some z => JsRet.num z
        | none => JsRet.nullv) := by
  constructor
  · simp [Timer.update, h]
  · simp [TimerV0.update, h0]

/-- Witness for C7 at a paused timer of each variant. -/
theorem update_paused_noop_witness :
    (((Timer.new ⟨0, 0, 5⟩).start 0).pause 1).update 999999
      = ((Timer.new ⟨0, 0, 5⟩).start 0).pause 1
    ∧ (TimerV0.update ⟨some 42, some 7, 99, none, none, none⟩ 123)
      = (⟨some 42, some 7, 99, none, none, none⟩, JsRet.num 42) := by
  have h := update_paused_noop (((Timer.new ⟨0, 0, 5⟩).start 0).pause 1)
    ⟨some 42, some 7, 99, none, none, none⟩ 999999 123 (by decide) (by decide)
  exact ⟨h.1, h.2⟩

/-- C1 (counterexample): a Playing timer whose `update()` computes a
remaining value of `-1` does transition to Stopped, but immediately after
`Timer.update()` its `remainingDuration` is `⟨-1, -1, -1⟩`, not zero, and
it formats as `-1:-1:-1`, not `00:00:00`. -/
theorem update_expiry_not_zeroed :
    ((Timer.new ⟨0, 0, 2⟩).start 0).state = TState.play
    ∧ (((Timer.new ⟨0, 0, 2⟩).start 0).update 2000001).mcsLeft = some (-1)
    ∧ (((Timer.new ⟨0, 0, 2⟩).start 0).update 2000001).state = TState.stop
    ∧ (((Timer.new ⟨0, 0, 2⟩).start 0).update 2000001).time = ⟨-1, -1, -1⟩
    ∧ (((Timer.new ⟨0, 0, 2⟩).start 0).update 2000001).time.getFormatted ≠ "00:00:00" := by
  simp [Timer.new, Timer.start, Timer.update, Timer.stop, jsToInt,
    jsSeconds_eq, jsMinutes_eq, jsHours_eq, Time.getFormatted, padStart2]
  decide

/-- C1 (amended): for a Playing timer, when the refresh tick
`updateTimer()` finds a remaining value `≤ 0`, then after the tick —
which runs `update()` and, seeing the timer Stopped, `stopTimer('Done!')`
— the state is Stopped, the remaining duration is zero in every component
(formatted `00:00:00`), the tick returns `false` (cancelling the periodic
callback), and exactly one `'Done!'` notification is emitted. Immediately
after `Timer.update()` alone the components may still be negative. -/
theorem updateTimer_expiry (p : Popup) (now : ℤ)
    (hplay : p.timer.state = TState.play)
    (hexp : jsToInt p.timer.finishTimestamp - now ≤ 0) :
    (p.updateTimer now).1.timer.state = TState.stop
    ∧ (p.updateTimer now).1.timer.time = ⟨0, 0, 0⟩
    ∧ (p.updateTimer now).1.timer.time.getFormatted = "00:00:00"
    ∧ (p.updateTimer now).2.1 = false
    ∧ ((p.updateTimer now).2.2.count (Act.notify doneText)) = 1
    ∧ (p.updateTimer now).1.panelLabel = doneText := by
  have hne : p.timer.state ≠ TState.pause := by
    rw [hplay]
    exact fun hc => TState.noConfusion hc
  have hupd := Timer.update_not_paused p.timer now hne
  unfold Popup.updateTimer
  rw [hupd]
  simp [Timer.isStopped, hexp, Popup.stopTimer, Popup.updatePanelLabel,
    Timer.stop, doneText, playStateLabel]
  decide

/-- Witness for C1 (amended) on a concrete expired popup. -/
theorem updateTimer_expiry_witness :
    ((Popup.mk ((Timer.new ⟨0, 0, 1⟩).start 0) ⟨0, 0, 1⟩ "" "").updateTimer 1000001).2.1 = false
    ∧ ((Popup.mk ((Timer.new ⟨0, 0, 1⟩).start 0) ⟨0, 0, 1⟩ "" "").updateTimer
        1000001).1.timer.time = ⟨0, 0, 0⟩ := by
  have h := updateTimer_expiry (Popup.mk ((Timer.new ⟨0, 0, 1⟩).start 0) ⟨0, 0, 1⟩ "" "") 1000001
    (by simp [Timer.new, Timer.start, Timer.update, Timer.stop, jsToInt,
          jsSeconds_eq, jsMinutes_eq, jsHours_eq]; decide)
    (by simp [Timer.new, Timer.start, Timer.update, Timer.stop, jsToInt,
          jsSeconds_eq, jsMinutes_eq, jsHours_eq]; decide)
  exact ⟨h.2.2.2.1, h.2.1⟩

/-- C4: pausing at `t0`, letting any non-negative `d` elapse, resuming at
`t0 + d` and updating at that same instant yields a remaining value equal
to `finishTimestamp - t0` — independent of `d`, because `resume()` shifts
the deadline forward by exactly the elapsed pause duration. -/
theorem pause_resume_excludes_paused_time (T : Timer) (t0 d : ℤ)
    (hplay : T.state = TState.play) (hd : 0 ≤ d) :
    (((T.pause t0).resume (t0 + d)).update (t0 + d)).mcsLeft
      = some (jsToInt T.finishTimestamp - t0) := by
  have hne : ((T.pause t0).resume (t0 + d)).state ≠ TState.pause := by
    simp [Timer.pause, Timer.resume]
  rw [Timer.update_not_paused _ _ hne]
  simp [Timer.pause, Timer.resume, jsToInt]

/-- Witness for C4: a 5-second timer paused at 1 s, resumed 7 μs later,
still has 4 s left. -/
theorem pause_resume_excludes_paused_time_witness :
    (((((Timer.new ⟨0, 0, 5⟩).start 0).pause 1000000).resume (1000000 + 7)).update
        (1000000 + 7)).mcsLeft = some 4000000 := by
  have h := pause_resume_excludes_paused_time ((Timer.new ⟨0, 0, 5⟩).start 0) 1000000 7
    (by simp [Timer.new, Timer.start, Timer.update, Timer.stop, jsToInt,
          jsSeconds_eq, jsMinutes_eq, jsHours_eq]; decide)
    (by decide)
  rw [h]
  simp [Timer.new, Timer.start, Timer.update, Timer.stop, jsToInt,
    jsSeconds_eq, jsMinutes_eq, jsHours_eq]
  decide

/-- C6: while Playing, two successive `update()` calls at non-decreasing
clock instants compute non-increasing remaining values
(`finishTimestamp - t1` then `finishTimestamp - t2`, against the same
unchanged deadline); the state turns to Stopped on the first update whose
remaining value is `≤ 0` and stays Playing while it is positive. -/
theorem update_monotone (T : Timer) (t1 t2 : ℤ)
    (hplay : T.state = TState.play) (h12 : t1 ≤ t2) :
    (T.update t1).mcsLeft = some (jsToInt T.finishTimestamp - t1)
    ∧ ((T.update t1).update t2).mcsLeft = some (jsToInt T.finishTimestamp - t2)
    ∧ jsToInt T.finishTimestamp - t2 ≤ jsToInt T.finishTimestamp - t1
    ∧ (0 < jsToInt T.finishTimestamp - t1 → (T.update t1).state = TState.play)
    ∧ (jsToInt T.finishTimestamp - t1 ≤ 0 → (T.update t1).state = TState.stop)
    ∧ (jsToInt T.finishTimestamp - t2 ≤ 0 → ((T.update t1).update t2).state = TState.stop) := by
  have hne : T.state ≠ TState.pause := by
    rw [hplay]
    exact fun hc => TState.noConfusion hc
  have h1 := Timer.update_not_paused T t1 hne
  have hne2 : (T.update t1).state ≠ TState.pause := by
    rw [h1, hplay]
    by_cases hm : jsToInt T.finishTimestamp - t1 ≤ 0 <;> simp [hm]
  have h2 := Timer.update_not_paused (T.update t1) t2 hne2
  rw [Timer.update_finish] at h2
  rw [h1] at h2 ⊢
  rw [h2]
  refine ⟨rfl, rfl, by omega, ?_, ?_, ?_⟩
  · intro hpos
    simp [show ¬(jsToInt T.finishTimestamp - t1 ≤ 0) by omega, hplay]
  · intro hle
    simp [hle]
  · intro hle2
    simp [hle2]

/-- Normal form of `start()`: deadline `now + duration`, `mcsLeft` equal
to the configured duration in microseconds, components recomputed from
it, state Playing unless the duration is `≤ 0` (in which case the
embedded `update()` immediately stops). -/
theorem Timer.start_normal (T : Timer) (now : ℤ) :
    T.start now =
      { time := ⟨jsHours (SECOND_TO_MS * T.time.seconds + MINUTE_TO_MS * T.time.minutes
                    + HOUR_TO_MS * T.time.hours),
                 jsMinutes (SECOND_TO_MS * T.time.seconds + MINUTE_TO_MS * T.time.minutes
                    + HOUR_TO_MS * T.time.hours),
                 jsSeconds (SECOND_TO_MS * T.time.seconds + MINUTE_TO_MS * T.time.minutes
                    + HOUR_TO_MS * T.time.hours)⟩
        mcsLeft := some (SECOND_TO_MS * T.time.seconds + MINUTE_TO_MS * T.time.minutes
            + HOUR_TO_MS * T.time.hours)
        pauseTimestamp := T.pauseTimestamp
        finishTimestamp := some (now + SECOND_TO_MS * T.time.seconds
            + MINUTE_TO_MS * T.time.minutes + HOUR_TO_MS * T.time.hours)
        state := if SECOND_TO_MS * T.time.seconds + MINUTE_TO_MS * T.time.minutes
            + HOUR_TO_MS * T.time.hours ≤ 0 then TState.stop else TState.play } := by
  unfold Timer.start
  rw [Timer.update_not_paused _ _ (by simp)]
  have harg : now + SECOND_TO_MS * T.time.seconds + MINUTE_TO_MS * T.time.minutes
      + HOUR_TO_MS * T.time.hours - now
      = SECOND_TO_MS * T.time.seconds + MINUTE_TO_MS * T.time.minutes
        + HOUR_TO_MS * T.time.hours := by
    ring
  simp only [jsToInt, harg]

/-- Witness for C6: a 1-second timer updated at 0.4 s and 0.9 s. -/
theorem update_monotone_witness :
    ((((Timer.new ⟨0, 0, 1⟩).start 0).update 400000).update 900000).mcsLeft = some 100000 := by
  have h := update_monotone ((Timer.new ⟨0, 0, 1⟩).start 0) 400000 900000
    (by simp [Timer.new, Timer.start, Timer.update, Timer.stop, jsToInt,
          jsSeconds_eq, jsMinutes_eq, jsHours_eq]; decide)
    (by decide)
  rw [h.2.1]
  simp [Timer.new, Timer.start, Timer.update, Timer.stop, jsToInt,
    jsSeconds_eq, jsMinutes_eq, jsHours_eq]
  decide

/-- C8: for any configured duration with `0 ≤ h` and `0 ≤ m, s ≤ 59`,
`setTime` followed by `start` (whose embedded `update()` runs at the same
instant) recovers exactly the configured components (hence within one
tick), with `mcsLeft` equal to the exact microsecond total; and for every
non-negative remaining value the code's derivation agrees with the
truncating formulas `floor(remaining / unit) mod 60` (resp. plain floor
for hours). -/
theorem start_recovers_duration (T : Timer) (h m s t : ℤ)
    (hh : 0 ≤ h) (hm0 : 0 ≤ m) (hm59 : m ≤ 59) (hs0 : 0 ≤ s) (hs59 : s ≤ 59) :
    ((T.setTime ⟨h, m, s⟩).start t).time = ⟨h, m, s⟩
    ∧ ((T.setTime ⟨h, m, s⟩).start t).mcsLeft
        = some (SECOND_TO_MS * s + MINUTE_TO_MS * m + HOUR_TO_MS * h)
    ∧ ∀ mcs : ℤ, 0 ≤ mcs →
        jsSeconds mcs = ⌊(mcs : ℚ) / (SECOND_TO_MS : ℚ)⌋ % 60
        ∧ jsMinutes mcs = ⌊(mcs : ℚ) / (MINUTE_TO_MS : ℚ)⌋ % 60
        ∧ jsHours mcs = ⌊(mcs : ℚ) / (HOUR_TO_MS : ℚ)⌋ := by
  have hts : (T.setTime ⟨h, m, s⟩).time = ⟨h, m, s⟩ := rfl
  have htot : 0 ≤ SECOND_TO_MS * s + MINUTE_TO_MS * m + HOUR_TO_MS * h := by
    unfold SECOND_TO_MS MINUTE_TO_MS HOUR_TO_MS
    omega
  refine ⟨?_, ?_, ?_⟩
  · rw [Timer.start_normal, hts]
    simp only [Time.mk.injEq]
    rw [jsSeconds_eq, jsMinutes_eq, jsHours_eq]
    rw [if_pos htot, if_pos htot]
    unfold SECOND_TO_MS MINUTE_TO_MS HOUR_TO_MS at htot ⊢
    refine ⟨by omega, by omega, by omega⟩
  · rw [Timer.start_normal, hts]
  · intro mcs hmcs
    have hsec : ⌊(mcs : ℚ) / (SECOND_TO_MS : ℚ)⌋ = mcs / 1000000 := by
      rw [show ((SECOND_TO_MS : ℤ) : ℚ) = ((1000000 : ℕ) : ℚ) by norm_num [SECOND_TO_MS]]
      exact Rat.floor_intCast_div_natCast mcs 1000000
    have hmin : ⌊(mcs : ℚ) / (MINUTE_TO_MS : ℚ)⌋ = mcs / 60000000 := by
      rw [show ((MINUTE_TO_MS : ℤ) : ℚ) = ((60000000 : ℕ) : ℚ) by norm_num [MINUTE_TO_MS]]
      exact Rat.floor_intCast_div_natCast mcs 60000000
    have hhr : ⌊(mcs : ℚ) / (HOUR_TO_MS : ℚ)⌋ = mcs / 3600000000 := by
      rw [show ((HOUR_TO_MS : ℤ) : ℚ) = ((3600000000 : ℕ) : ℚ) by norm_num [HOUR_TO_MS]]
      exact Rat.floor_intCast_div_natCast mcs 3600000000
    rw [hsec, hmin, hhr, jsSeconds_eq, jsMinutes_eq, jsHours_eq, if_pos hmcs, if_pos hmcs]
    refine ⟨by omega, by omega, rfl⟩

/-- Witness for C8: configuring `(1, 2, 3)` and starting at `t = 0` shows
`01:02:03` again. -/
theorem start_recovers_duration_witness :
    (((Timer.new ⟨0, 0, 0⟩).setTime ⟨1, 2, 3⟩).start 0).time = ⟨1, 2, 3⟩ :=
  (start_recovers_duration (Timer.new ⟨0, 0, 0⟩) 1 2 3 0 (by decide) (by decide)
    (by decide) (by decide) (by decide)).1

/-- C9: starting the refresh loop performs exactly one synchronous
`timer.update()` invocation (the head of the action trace) before the
single `timeout_add(500, ...)` scheduling action (the last element of the
trace), so the display is refreshed immediately rather than after the
first 500 ms interval. -/
theorem startDisplayingTime_order (p : Popup) (now : ℤ) :
    (p.startDisplayingTime now).2.head? = some Act.updateCall
    ∧ (p.startDisplayingTime now).2.count Act.updateCall = 1
    ∧ (p.startDisplayingTime now).2.getLast? = some (Act.scheduleTimeout 500)
    ∧ (p.startDisplayingTime now).2.count (Act.scheduleTimeout 500) = 1 := by
  unfold Popup.startDisplayingTime Popup.updateTimer
  by_cases hs : (p.timer.update now).state = TState.stop <;>
    simp [Popup.stopTimer, Popup.updatePanelLabel, Timer.isStopped, hs]

/-- C10: `setTime` allocates a fresh `Time` cell for the timer, so after
`startTimer()` the running timer's reference differs from the shared
`options.time` reference; a subsequent slider write (`handleTimeInput`)
leaves the timer's snapshot cell untouched, and the result of any later
`update()` is the same as if the slider input had not happened. -/
theorem setTime_snapshot (p : PopupH) (h : HeapTime) (now : ℤ) (v : Time)
    (hwf : p.optionsTimeRef < h.nextRef) :
    (p.startTimer h now).1.timer.timeRef ≠ p.optionsTimeRef
    ∧ ((p.startTimer h now).1.handleTimeInput (p.startTimer h now).2 v).val
          (p.startTimer h now).1.timer.timeRef
        = (p.startTimer h now).2.val (p.startTimer h now).1.timer.timeRef
    ∧ ∀ t2 : ℤ,
        ((p.startTimer h now).1.timer.update
            ((p.startTimer h now).1.handleTimeInput (p.startTimer h now).2 v) t2).1
          = ((p.startTimer h now).1.timer.update (p.startTimer h now).2 t2).1 := by
  have hr : (p.startTimer h now).1.timer.timeRef = h.nextRef := by
    simp [PopupH.startTimer, HTimer.setTime, HeapTime.alloc, HTimer.start, HTimer.update]
  have hopt : (p.startTimer h now).1.optionsTimeRef = p.optionsTimeRef := rfl
  have hne : (p.startTimer h now).1.timer.timeRef ≠ p.optionsTimeRef := by
    rw [hr]
    omega
  refine ⟨hne, ?_, ?_⟩
  · unfold PopupH.handleTimeInput
    rw [hopt]
    simp [HeapTime.write, hne]
  · intro t2
    unfold HTimer.update
    by_cases hp : (p.startTimer h now).1.timer.state = TState.pause <;> simp [hp]

/-- Witness for C10 on a one-cell heap. -/
theorem setTime_snapshot_witness :
    ((PopupH.mk ⟨0, none, none, TState.stop⟩ 0).startTimer
        ⟨1, fun _ => ⟨0, 0, 0⟩⟩ 0).1.timer.timeRef ≠ 0 :=
  (setTime_snapshot (PopupH.mk ⟨0, none, none, TState.stop⟩ 0)
    ⟨1, fun _ => ⟨0, 0, 0⟩⟩ 0 ⟨1, 1, 1⟩ (by decide)).1

end GnomeTimer
